import Mathlib

/-!
Shallow embedding of the client-side view engine and the repository-adapter
round trips of `src/src/App.vue` (a Vue 3 + Supabase task manager).

Modelling conventions:
* JavaScript strings are modelled as `List Char` (`Str`); `jsTrim`, `jsToLower`,
  `containsSub` and `strLt` model `String.prototype.trim`, `toLowerCase`,
  `includes` and the `<` comparison on strings (lexicographic by code unit).
* `created_at` is modelled as a natural number timestamp, abstracting
  `new Date(x).getTime()` (parsing an ISO timestamp is monotone in time).
* Each adapter round trip is modelled by an explicit outcome parameter
  (`Bool` success flag, or `Option Todo` for the insert that returns the
  stored row).  The functions return the new local collection together with
  the number of round trips issued, mirroring the `if (error) ... else ...`
  structure of the source.
* `filteredTodos` in the source is `todos.value` piped through up to four
  conditional `Array.prototype.filter` calls and one `Array.prototype.sort`.
  `filter` allocates a fresh array while `sort` sorts its receiver in place,
  so when no filter is active the stored collection itself is sorted and the
  returned view aliases it; `filteredTodosFull` records the collection after
  the call and whether the returned sequence is a fresh array.
* `Array.prototype.sort` with the two-key comparator of lines 80-87 is
  modelled by a stable sort with respect to the comparator's total preorder.
-/

abbrev Str := List Char

def str (s : String) : Str := s.toList

/-- Model of `String.prototype.trim`: drop whitespace from both ends. -/
def jsTrim (s : Str) : Str :=
  ((s.dropWhile Char.isWhitespace).reverse.dropWhile Char.isWhitespace).reverse

/-- Model of `String.prototype.toLowerCase`. -/
def jsToLower (s : Str) : Str := s.map Char.toLower

def startsWith : Str → Str → Bool
  | [], _ => true
  | _ :: _, [] => false
  | c :: q, d :: s => c == d && startsWith q s

/-- Model of `String.prototype.includes`: `containsSub q s` is true when `q`
occurs as a contiguous substring of `s`. -/
def containsSub (q : Str) : Str → Bool
  | [] => startsWith q []
  | c :: rest => startsWith q (c :: rest) || containsSub q rest

/-- Model of the JavaScript `<` comparison on strings (lexicographic). -/
def strLt : Str → Str → Bool
  | [], [] => false
  | [], _ :: _ => true
  | _ :: _, [] => false
  | c :: s, d :: t => decide (c < d) || (c == d && strLt s t)

/-- The `priority` union type `'low' | 'medium' | 'high'` of the `Todo`
interface (App.vue line 11). -/
inductive Priority
  | low
  | medium
  | high
deriving DecidableEq

/-- The string value of a priority, as stored in the database column and
compared against the priority filter selection. -/
def priorityValue : Priority → Str
  | .low => str "low"
  | .medium => str "medium"
  | .high => str "high"

/-- The `Todo` interface of App.vue lines 5-14. -/
structure Todo where
  id : Nat
  task : Str
  completed : Bool
  created_at : Nat
  category : Str
  priority : Priority
  due_date : Option Str
  notes : Option Str
deriving DecidableEq

/-- The `priorityOrder` table of App.vue line 82: high=3, medium=2, low=1. -/
def priorityOrder : Priority → Nat
  | .high => 3
  | .medium => 2
  | .low => 1

/-- The four transient filter refs of App.vue lines 23-26: `searchQuery`,
`selectedFilter`, `selectedCategory`, `selectedPriority`. -/
structure Filters where
  searchQuery : Str
  selectedFilter : Str
  selectedCategory : Str
  selectedPriority : Str
deriving DecidableEq

/-- The search predicate of App.vue lines 52-55: title or (truthy) notes
contains the raw query, case-insensitively. -/
def searchPred (q : Str) (t : Todo) : Bool :=
  containsSub (jsToLower q) (jsToLower t.task) ||
    (match t.notes with
     | some n => !n.isEmpty && containsSub (jsToLower q) (jsToLower n)
     | none => false)

/-- The overdue predicate of App.vue lines 65-67: not completed, truthy
due date, and due date strictly before today (string comparison of ISO
dates, which is calendar order). -/
def overduePred (today : Str) (t : Todo) : Bool :=
  !t.completed &&
    (match t.due_date with
     | some d => !d.isEmpty && strLt d today
     | none => false)

/-- App.vue lines 51-56: `if (searchQuery.value) filtered = filtered.filter ...`.
Note the source tests the raw query for truthiness without trimming. -/
def applySearch (f : Filters) (l : List Todo) : List Todo :=
  if f.searchQuery.isEmpty then l else l.filter (searchPred f.searchQuery)

/-- App.vue lines 59-68: the status filter branch. -/
def applyStatus (f : Filters) (today : Str) (l : List Todo) : List Todo :=
  if f.selectedFilter = str "pending" then l.filter (fun t => !t.completed)
  else if f.selectedFilter = str "completed" then l.filter (fun t => t.completed)
  else if f.selectedFilter = str "overdue" then l.filter (overduePred today)
  else l

/-- App.vue lines 71-73: the category filter branch. -/
def applyCategory (f : Filters) (l : List Todo) : List Todo :=
  if f.selectedCategory = str "all" then l
  else l.filter (fun t => t.category == f.selectedCategory)

/-- App.vue lines 76-78: the priority filter branch. -/
def applyPriority (f : Filters) (l : List Todo) : List Todo :=
  if f.selectedPriority = str "all" then l
  else l.filter (fun t => priorityValue t.priority == f.selectedPriority)

/-- The filter pipeline of `filteredTodos` (App.vue lines 47-78), before the
final sort. -/
def filteredTodosRaw (l : List Todo) (f : Filters) (today : Str) : List Todo :=
  applyPriority f (applyCategory f (applyStatus f today (applySearch f l)))

/-- The total preorder decided by the comparator of App.vue lines 80-87:
`a` may come before `b` exactly when the comparator returns a value ≤ 0,
i.e. higher priority rank first, and newer `created_at` first within a rank. -/
def todoBefore (a b : Todo) : Prop :=
  priorityOrder b.priority < priorityOrder a.priority ∨
    (priorityOrder a.priority = priorityOrder b.priority ∧ b.created_at ≤ a.created_at)

instance : DecidableRel todoBefore := fun a b =>
  decidable_of_iff (priorityOrder b.priority < priorityOrder a.priority ∨
    (priorityOrder a.priority = priorityOrder b.priority ∧ b.created_at ≤ a.created_at))
    Iff.rfl

instance : IsTotal Todo todoBefore where
  total a b := by unfold todoBefore; omega

instance : IsTrans Todo todoBefore where
  trans a b c hab hbc := by unfold todoBefore at hab hbc ⊢; omega

/-- The `sort` call of App.vue lines 80-87, modelled as a stable sort with
respect to the comparator's preorder. -/
def sortTodos (l : List Todo) : List Todo := List.insertionSort todoBefore l

/-- The sequence of tasks returned by the `filteredTodos` computed property
(App.vue lines 47-88). -/
def filteredTodos (l : List Todo) (f : Filters) (today : Str) : List Todo :=
  sortTodos (filteredTodosRaw l f today)

/-- True exactly when at least one of the four filter branches of
`filteredTodos` runs a `filter` call (which allocates a fresh array). -/
def anyFilterActive (f : Filters) : Bool :=
  !f.searchQuery.isEmpty ||
    f.selectedFilter == str "pending" ||
    f.selectedFilter == str "completed" ||
    f.selectedFilter == str "overdue" ||
    !(f.selectedCategory == str "all") ||
    !(f.selectedPriority == str "all")

/-- Result of evaluating `filteredTodos`: the returned view, the stored
collection after the call, and whether the view is a fresh array (rather
than an alias of the stored collection). -/
structure ViewResult where
  view : List Todo
  todosAfter : List Todo
  fresh : Bool
deriving DecidableEq

/-- Evaluating `filteredTodos` including its effect on `todos.value`: when no
filter branch runs, `filtered` is still `todos.value` itself and the in-place
`sort` reorders the stored collection, returning the same (aliased) array;
otherwise the stored collection is untouched and the view is fresh. -/
def filteredTodosFull (l : List Todo) (f : Filters) (today : Str) : ViewResult :=
  let sorted := filteredTodos l f today
  if anyFilterActive f then ⟨sorted, l, true⟩ else ⟨sorted, sorted, false⟩

/-- The `completionPercentage` computed property of App.vue lines 90-93.
`Math.round` on a nonnegative value is `round` (half away from zero). -/
def completionPercentage (l : List Todo) : ℤ :=
  if l.length = 0 then 0
  else round ((((l.filter (fun t => t.completed)).length : ℚ) / (l.length : ℚ)) * 100)

/-- The form refs used by `addTodo` (App.vue lines 17-21). -/
structure AddForm where
  newTask : Str
  newCategory : Str
  newPriority : Priority
  newDueDate : Str
  newNotes : Str

/-- App.vue lines 139-166, `addTodo`: returns early with zero round trips on
an empty trimmed title; otherwise issues one insert round trip and, on
success, prepends (`unshift`) the store-returned row. -/
def addTodo (form : AddForm) (l : List Todo) (outcome : Option Todo) :
    List Todo × Nat :=
  if (jsTrim form.newTask).isEmpty then (l, 0)
  else
    match outcome with
    | none => (l, 1)
    | some row => (row :: l, 1)

def flipAt : List Todo → Nat → List Todo
  | [], _ => []
  | t :: ts, 0 => { t with completed := !t.completed } :: ts
  | t :: ts, n + 1 => t :: flipAt ts n

/-- App.vue lines 178-193, `toggleTodo`: flips the `completed` flag of the
task object at position `i` only after the adapter confirms the update. -/
def toggleTodo (l : List Todo) (i : Nat) (ok : Bool) : List Todo :=
  if ok then flipAt l i else l

/-- App.vue lines 196-211, `deleteTodo`: on success removes the tasks whose
id equals the given id. -/
def deleteTodo (l : List Todo) (id : Nat) (ok : Bool) : List Todo :=
  if ok then l.filter (fun t => !(t.id == id)) else l

/-- The edit sub-state of App.vue lines 28-29: `editingTodo` and `editText`. -/
structure EditSt where
  editing : Option Nat
  text : Str
deriving DecidableEq

/-- App.vue lines 242-245, `cancelEdit`: clears the edit sub-state (Idle). -/
def cancelEdit : EditSt := ⟨none, str ""⟩

/-- The local effect of a confirmed rename (App.vue lines 231-234):
`todos.value.find` locates the first task with the edited id and its `task`
field is overwritten; nothing happens when no task matches. -/
def updateFirst : List Todo → Nat → Str → List Todo
  | [], _, _ => []
  | t :: ts, id, d =>
    if t.id = id then { t with task := d } :: ts else t :: updateFirst ts id d

/-- App.vue lines 219-240, `saveEdit`.  The guard
`if (!editingTodo.value || !editText.value.trim()) return` returns with zero
round trips when no edit is active, when the edited id is `0` (falsy in
JavaScript), or when the draft trims to empty.  Otherwise one update round
trip is issued; on success the first matching task's title is replaced and
`cancelEdit()` runs; on failure (the `if (error)` branch) nothing further
happens, so the edit sub-state is left as it was. -/
def saveEdit (st : EditSt) (l : List Todo) (ok : Bool) :
    List Todo × EditSt × Nat :=
  match st.editing with
  | none => (l, st, 0)
  | some id =>
    if id = 0 then (l, st, 0)
    else if (jsTrim st.text).isEmpty then (l, st, 0)
    else if ok then (updateFirst l id (jsTrim st.text), cancelEdit, 1)
    else (l, st, 1)

/-- App.vue line 268: the id set snapshot taken when `clearCompleted` is
invoked, sent to the adapter as the bulk-delete membership predicate. -/
def clearCompletedIds (l : List Todo) : List Nat :=
  (l.filter (fun t => t.completed)).map (fun t => t.id)

/-- App.vue lines 267-284, `clearCompleted`: `l0` is the collection at call
time (from which the id snapshot is computed) and `l1` the collection at the
moment the adapter outcome arrives.  On success the local removal is
`todos.value.filter(t => !t.completed)` over the collection as it is then —
by the current `completed` flag, not by the snapshot ids. -/
def clearCompleted (l0 l1 : List Todo) (ok : Bool) : List Nat × List Todo :=
  (clearCompletedIds l0, if ok then l1.filter (fun t => !t.completed) else l1)

/-- Conjunction of the filter predicates of `filteredTodos`, each guarded by
its activation condition exactly as in the source (the text query is active
whenever the raw, untrimmed query is non-empty). -/
def passesFilters (f : Filters) (today : Str) (t : Todo) : Bool :=
  (if f.searchQuery.isEmpty then true else searchPred f.searchQuery t) &&
  (if f.selectedFilter = str "pending" then !t.completed
   else if f.selectedFilter = str "completed" then t.completed
   else if f.selectedFilter = str "overdue" then overduePred today t
   else true) &&
  (if f.selectedCategory = str "all" then true
   else t.category == f.selectedCategory) &&
  (if f.selectedPriority = str "all" then true
   else priorityValue t.priority == f.selectedPriority)

/-! Concrete example data used by witnesses and counterexamples. -/

/-- An everyday task with all-default optional data. -/
def exTodo : Todo := ⟨1, str "abc", false, 0, str "personal", .medium, none, none⟩

/-- A low-priority task. -/
def exLow : Todo := ⟨1, str "a", false, 0, str "personal", .low, none, none⟩

/-- A high-priority task. -/
def exHigh : Todo := ⟨2, str "b", false, 0, str "personal", .high, none, none⟩

/-- The all-defaults filter setting: empty query, all three selectors "all". -/
def defaultFilters : Filters := ⟨str "", str "all", str "all", str "all"⟩

/-- Filter setting whose only non-default entry is a whitespace-only query. -/
def wsFilters : Filters := ⟨str " ", str "all", str "all", str "all"⟩

/-- A completed task, as seen at the moment `clearCompleted` is invoked. -/
def cTodoDone : Todo := ⟨1, str "a", true, 0, str "personal", .medium, none, none⟩

/-- The same task after being toggled back to incomplete while the bulk
delete is in flight. -/
def cTodoBack : Todo := { cTodoDone with completed := false }

/-- An edit sub-state with a non-empty draft for task 1. -/
def editingSt : EditSt := ⟨some 1, str "hello"⟩

/-- A form whose title is whitespace-only. -/
def wsForm : AddForm := ⟨str "  ", str "personal", .medium, str "", str ""⟩

/-- An edit sub-state whose draft is whitespace-only. -/
def wsEdit : EditSt := ⟨some 1, str " "⟩

/-- A task used as a rename target. -/
def exTarget : Todo :=
  ⟨5, str "old", false, 3, str "work", .high, some (str "2025-01-02"), some (str "n")⟩

/-! Helper lemmas (shared infrastructure, not claim theorems). -/

lemma mem_applySearch (f : Filters) (l : List Todo) (t : Todo) :
    t ∈ applySearch f l ↔
      t ∈ l ∧ (if f.searchQuery.isEmpty then true else searchPred f.searchQuery t) = true := by
  unfold applySearch
  split <;> simp [List.mem_filter]

lemma mem_applyStatus (f : Filters) (today : Str) (l : List Todo) (t : Todo) :
    t ∈ applyStatus f today l ↔
      t ∈ l ∧ (if f.selectedFilter = str "pending" then !t.completed
        else if f.selectedFilter = str "completed" then t.completed
        else if f.selectedFilter = str "overdue" then overduePred today t
        else true) = true := by
  unfold applyStatus
  split <;> [skip; split <;> [skip; split]] <;> simp [List.mem_filter]

lemma mem_applyCategory (f : Filters) (l : List Todo) (t : Todo) :
    t ∈ applyCategory f l ↔
      t ∈ l ∧ (if f.selectedCategory = str "all" then true
        else t.category == f.selectedCategory) = true := by
  unfold applyCategory
  split <;> simp [List.mem_filter]

lemma mem_applyPriority (f : Filters) (l : List Todo) (t : Todo) :
    t ∈ applyPriority f l ↔
      t ∈ l ∧ (if f.selectedPriority = str "all" then true
        else priorityValue t.priority == f.selectedPriority) = true := by
  unfold applyPriority
  split <;> simp [List.mem_filter]

lemma round_div_mono (c n : Nat) (hn : n ≠ 0) :
    round (((c : ℚ) / n) * 100) ≤ round ((((c : ℚ) + 1) / n) * 100) := by
  have hn' : (0 : ℚ) < n := by exact_mod_cast Nat.pos_of_ne_zero hn
  have h1 : (c : ℚ) / n ≤ ((c : ℚ) + 1) / n :=
    (div_le_div_iff_of_pos_right hn').mpr (by linarith)
  have h2 := mul_le_mul_of_nonneg_right h1 (by norm_num : (0 : ℚ) ≤ 100)
  rw [round_eq, round_eq]
  exact Int.floor_mono (by linarith)

lemma updateFirst_eq_self (l : List Todo) (id : Nat) (d : Str)
    (h : id ∉ l.map Todo.id) : updateFirst l id d = l := by
  induction l with
  | nil => rfl
  | cons t ts ih =>
    simp only [List.map_cons, List.mem_cons, not_or] at h
    rw [updateFirst, if_neg (fun hc => h.1 hc.symm), ih h.2]

lemma updateFirst_split (l : List Todo) (id : Nat) (d : Str)
    (hmem : id ∈ l.map Todo.id) :
    ∃ l1 t l2, l = l1 ++ t :: l2 ∧ t.id = id ∧ (∀ u ∈ l1, u.id ≠ id) ∧
      updateFirst l id d = l1 ++ { t with task := d } :: l2 := by
  induction l with
  | nil => simp at hmem
  | cons a ts ih =>
    by_cases ha : a.id = id
    · exact ⟨[], a, ts, by simp, ha, by simp, by simp [updateFirst, ha]⟩
    · have hmem' : id ∈ ts.map Todo.id := by
        simp only [List.map_cons, List.mem_cons] at hmem
        rcases hmem with h | h
        · exact absurd h.symm ha
        · exact h
      obtain ⟨l1, t, l2, he, hid, hnone, hupd⟩ := ih hmem'
      refine ⟨a :: l1, t, l2, by rw [he]; rfl, hid, ?_, ?_⟩
      · intro u hu
        rcases List.mem_cons.mp hu with h | h
        · rw [h]; exact ha
        · exact hnone u h
      · rw [updateFirst, if_neg ha, hupd]; rfl

/-! Claim theorems. -/

/-- Claim C2, counterexample: with the all-defaults filter setting the
in-place `sort` reorders the stored collection itself ([low, high] becomes
[high, low]) and the returned view aliases it rather than being a fresh
sequence, so computing the view does not leave the underlying collection
unchanged. -/
theorem C2_counterexample :
    (filteredTodosFull [exLow, exHigh] defaultFilters (str "2025-01-01")).todosAfter
        ≠ [exLow, exHigh] ∧
    (filteredTodosFull [exLow, exHigh] defaultFilters (str "2025-01-01")).fresh = false := by
  decide

/-- Claim C2 as amended: whenever at least one filter predicate is active,
computing the displayed view leaves the underlying task collection unchanged
(in the same element order) and returns a fresh sequence distinct from the
stored collection; only in the all-defaults setting is the stored collection
itself sorted in place and returned. -/
theorem C2_view_no_mutation (l : List Todo) (f : Filters) (today : Str)
    (h : anyFilterActive f = true) :
    (filteredTodosFull l f today).todosAfter = l ∧
    (filteredTodosFull l f today).fresh = true := by
  simp [filteredTodosFull, h]

/-- Witness for `C2_view_no_mutation` at a concrete active filter. -/
theorem C2_view_no_mutation_witness :
    anyFilterActive wsFilters = true ∧
    ((filteredTodosFull [exTodo] wsFilters (str "2025-01-01")).todosAfter = [exTodo] ∧
     (filteredTodosFull [exTodo] wsFilters (str "2025-01-01")).fresh = true) :=
  ⟨by decide, C2_view_no_mutation [exTodo] wsFilters (str "2025-01-01") (by decide)⟩

/-- Claim C3, counterexample: a whitespace-only query is non-empty, so the
source's untrimmed truthiness test activates the text filter, and the task
"abc" (which satisfies every predicate the claim counts as active: the query
trims to empty and the other three filters are at their defaults) is dropped
from the view.  The claim's "a whitespace-only query filters nothing" fails. -/
theorem C3_counterexample :
    (jsTrim wsFilters.searchQuery).isEmpty = true ∧
    wsFilters.selectedFilter = str "all" ∧
    wsFilters.selectedCategory = str "all" ∧
    wsFilters.selectedPriority = str "all" ∧
    exTodo ∈ [exTodo] ∧
    exTodo ∉ filteredTodos [exTodo] wsFilters (str "2025-01-01") := by
  decide

/-- Claim C3 as amended: the computed view contains a task if and only if it
is in the collection and satisfies the conjunction of the active filter
predicates, where the text-query predicate is active whenever the query is
non-empty WITHOUT trimming (a whitespace-only query is active and tests the
raw query as a case-insensitive substring), and the overdue predicate keeps
tasks that are not completed, have a due_date, and whose due_date is strictly
before the current calendar date. -/
theorem C3_view_membership (l : List Todo) (f : Filters) (today : Str) (t : Todo) :
    t ∈ filteredTodos l f today ↔ t ∈ l ∧ passesFilters f today t = true := by
  simp only [filteredTodos, sortTodos, List.mem_insertionSort, filteredTodosRaw,
    mem_applyPriority, mem_applyCategory, mem_applyStatus, mem_applySearch,
    passesFilters, Bool.and_eq_true]
  tauto

/-- Claim C5: in the computed view of a non-empty collection, any two
adjacent tasks `a, b` satisfy: rank of `a` exceeds rank of `b`, or the ranks
are equal and `a.created_at ≥ b.created_at` (high=3, medium=2, low=1). -/
theorem C5_sort_adjacent (l : List Todo) (f : Filters) (today : Str)
    (h : l ≠ []) :
    List.Chain'
      (fun a b => priorityOrder a.priority > priorityOrder b.priority ∨
        (priorityOrder a.priority = priorityOrder b.priority ∧
          a.created_at ≥ b.created_at))
      (filteredTodos l f today) := by
  have hs : List.Sorted todoBefore (filteredTodos l f today) :=
    List.sorted_insertionSort todoBefore (filteredTodosRaw l f today)
  exact List.Pairwise.chain' hs

/-- Witness for `C5_sort_adjacent` on a concrete two-task collection. -/
theorem C5_sort_adjacent_witness :
    ([exLow, exHigh] : List Todo) ≠ [] ∧
    List.Chain'
      (fun a b => priorityOrder a.priority > priorityOrder b.priority ∨
        (priorityOrder a.priority = priorityOrder b.priority ∧
          a.created_at ≥ b.created_at))
      (filteredTodos [exLow, exHigh] defaultFilters (str "2025-01-01")) :=
  ⟨by decide, C5_sort_adjacent [exLow, exHigh] defaultFilters (str "2025-01-01") (by decide)⟩

/-- Claim C1, counterexample: task 1 is completed at the moment
`clearCompleted` is invoked, so its id is in the snapshot set S sent to the
bulk delete; it is toggled back to incomplete before the adapter confirms,
and on success the source removes by the CURRENT `completed` flag
(`todos.value.filter(t => !t.completed)`), so task 1 is kept locally — the
local removal is not the id set S. -/
theorem C1_counterexample :
    cTodoBack.id ∈ clearCompletedIds [cTodoDone] ∧
    (clearCompleted [cTodoDone] [cTodoBack] true).2 = [cTodoBack] ∧
    (clearCompleted [cTodoDone] [cTodoBack] true).2
        ≠ [cTodoBack].filter (fun t => !((clearCompletedIds [cTodoDone]).contains t.id)) := by
  decide

/-- Claim C1 as amended: the bulk delete is issued for the snapshot id set S
of tasks completed at call time, but on success the tasks removed from the
local collection are exactly those whose `completed` flag is true at
confirmation time — a task in S that was toggled back to incomplete is kept
locally, and a task that became completed after the snapshot is removed
locally even though its id is not in S. -/
theorem C1_clearCompleted_semantics (l0 l1 : List Todo) (t : Todo) (h : t ∈ l1) :
    (clearCompleted l0 l1 true).1 = (l0.filter (fun u => u.completed)).map (fun u => u.id) ∧
    (t ∈ (clearCompleted l0 l1 true).2 ↔ t.completed = false) := by
  refine ⟨rfl, ?_⟩
  simp [clearCompleted, List.mem_filter, h]

/-- Witness for `C1_clearCompleted_semantics` at the toggled-back task. -/
theorem C1_clearCompleted_semantics_witness :
    cTodoBack ∈ [cTodoBack] ∧
    ((clearCompleted [cTodoDone] [cTodoBack] true).1
        = ([cTodoDone].filter (fun u => u.completed)).map (fun u => u.id) ∧
     (cTodoBack ∈ (clearCompleted [cTodoDone] [cTodoBack] true).2 ↔
        cTodoBack.completed = false)) :=
  ⟨by decide, C1_clearCompleted_semantics [cTodoDone] [cTodoBack] cTodoBack (by decide)⟩

/-- Claim C4, counterexample: with a non-empty trimmed draft for task 1, the
save action issues the rename round trip, but on adapter failure
`cancelEdit()` is never reached (it sits in the success branch), so the edit
sub-state does NOT transition to Idle — it stays Editing. -/
theorem C4_counterexample :
    (jsTrim editingSt.text).isEmpty = false ∧
    (saveEdit editingSt [] false).2.2 = 1 ∧
    (saveEdit editingSt [] false).2.1 ≠ cancelEdit := by
  decide

/-- Claim C4 as amended: for an Editing(id, draft) state with nonzero id (a
zero id is falsy and short-circuits the guard) and a non-empty trimmed
draft, save issues the rename round trip in both outcomes; on adapter
success the edit sub-state transitions to Idle, but on adapter failure it
remains Editing with the draft intact. -/
theorem C4_save_transitions (id : Nat) (d : Str) (l : List Todo)
    (hid : id ≠ 0) (hd : (jsTrim d).isEmpty = false) :
    (saveEdit ⟨some id, d⟩ l true).2.2 = 1 ∧
    (saveEdit ⟨some id, d⟩ l false).2.2 = 1 ∧
    (saveEdit ⟨some id, d⟩ l true).2.1 = cancelEdit ∧
    (saveEdit ⟨some id, d⟩ l false).2.1 = ⟨some id, d⟩ := by
  simp [saveEdit, hid, hd]

/-- Witness for `C4_save_transitions` at a concrete editing state. -/
theorem C4_save_transitions_witness :
    ((saveEdit ⟨some 1, str "hello"⟩ [] true).2.2 = 1 ∧
     (saveEdit ⟨some 1, str "hello"⟩ [] false).2.2 = 1 ∧
     (saveEdit ⟨some 1, str "hello"⟩ [] true).2.1 = cancelEdit ∧
     (saveEdit ⟨some 1, str "hello"⟩ [] false).2.1 = ⟨some 1, str "hello"⟩) :=
  C4_save_transitions 1 (str "hello") [] (by decide) (by decide)

/-- Claim C6: the completion percentage is 0 on the empty collection and
round(100 × completed / total) otherwise, and flipping any one task from
incomplete to completed (collection size fixed) never decreases it. -/
theorem C6_completionPercentage (l1 l2 : List Todo) (t : Todo)
    (l : List Todo) (hl : l ≠ []) (ht : t.completed = false) :
    completionPercentage [] = 0 ∧
    completionPercentage l =
      round ((100 * ((l.filter (fun u => u.completed)).length : ℚ)) / (l.length : ℚ)) ∧
    completionPercentage (l1 ++ t :: l2) ≤
      completionPercentage (l1 ++ { t with completed := true } :: l2) := by
  refine ⟨rfl, ?_, ?_⟩
  · rw [completionPercentage, if_neg (by simpa using hl)]
    congr 1
    ring
  · have hcount : ((l1 ++ { t with completed := true } :: l2).filter
        (fun u => u.completed)).length
        = ((l1 ++ t :: l2).filter (fun u => u.completed)).length + 1 := by
      simp [List.filter_append, List.filter_cons, ht]
      omega
    have hlen : (l1 ++ { t with completed := true } :: l2).length
        = (l1 ++ t :: l2).length := by simp
    rw [completionPercentage, completionPercentage,
      if_neg (by simp), if_neg (by simp), hcount, hlen]
    push_cast
    exact round_div_mono _ _ (by simp)

/-- Witness for `C6_completionPercentage` on a one-task collection. -/
theorem C6_completionPercentage_witness :
    ([exTodo] : List Todo) ≠ [] ∧ exTodo.completed = false ∧
    (completionPercentage [] = 0 ∧
     completionPercentage [exTodo] =
       round ((100 * ((([exTodo] : List Todo).filter (fun u => u.completed)).length : ℚ))
         / (([exTodo] : List Todo).length : ℚ)) ∧
     completionPercentage ([] ++ exTodo :: []) ≤
       completionPercentage ([] ++ { exTodo with completed := true } :: [])) :=
  ⟨by decide, by decide,
    C6_completionPercentage [] [] exTodo [exTodo] (by decide) (by decide)⟩

/-- Claim C7: for each mutation intent (create, toggle, rename, delete,
bulk-delete), an adapter failure leaves the local task collection exactly as
it was before the intent was issued. -/
theorem C7_failure_noop (form : AddForm) (l : List Todo) (i id : Nat)
    (st : EditSt) (l0 : List Todo) :
    (addTodo form l none).1 = l ∧
    toggleTodo l i false = l ∧
    (saveEdit st l false).1 = l ∧
    deleteTodo l id false = l ∧
    (clearCompleted l0 l false).2 = l := by
  refine ⟨?_, rfl, ?_, rfl, rfl⟩
  · unfold addTodo
    split <;> rfl
  · rcases st with ⟨e, txt⟩
    cases e with
    | none => rfl
    | some eid =>
      unfold saveEdit
      simp only []
      split_ifs with h1 h2 h3 <;> first | rfl | exact h3.elim

/-- Claim C8: a create whose title trims to empty issues zero adapter round
trips and leaves the collection unchanged, and saving a rename whose draft
trims to empty issues zero round trips and leaves the collection (hence
every title) unchanged, whatever the would-be adapter outcome. -/
theorem C8_empty_title_rejected (form : AddForm) (l : List Todo)
    (outcome : Option Todo) (st : EditSt) (ok : Bool)
    (h1 : (jsTrim form.newTask).isEmpty = true)
    (h2 : (jsTrim st.text).isEmpty = true) :
    addTodo form l outcome = (l, 0) ∧ saveEdit st l ok = (l, st, 0) := by
  constructor
  · simp [addTodo, h1]
  · rcases st with ⟨e, txt⟩
    cases e with
    | none => rfl
    | some eid =>
      by_cases hid : eid = 0
      · simp [saveEdit, hid]
      · simp [saveEdit, hid, h2]

/-- Witness for `C8_empty_title_rejected` on whitespace-only inputs. -/
theorem C8_empty_title_rejected_witness :
    (jsTrim wsForm.newTask).isEmpty = true ∧
    (jsTrim wsEdit.text).isEmpty = true ∧
    (addTodo wsForm [exTodo] (some exHigh) = ([exTodo], 0) ∧
     saveEdit wsEdit [exTodo] true = ([exTodo], wsEdit, 0)) :=
  ⟨by decide, by decide,
    C8_empty_title_rejected wsForm [exTodo] (some exHigh) wsEdit true
      (by decide) (by decide)⟩

/-- Claim C9: a successful rename of an existing task (nonzero id, non-empty
trimmed draft) rewrites the collection as `l1 ++ t before :: l2` becoming
`l1 ++ t after :: l2`, where `t after` keeps the id, completed, created_at,
category, priority, due_date and notes of `t before` and only the `task`
(title) field becomes the trimmed draft; every task in `l1` and `l2` is
untouched and the edit sub-state returns to Idle. -/
theorem C9_rename_frame (l : List Todo) (id : Nat) (d : Str)
    (hid : id ≠ 0) (hd : (jsTrim d).isEmpty = false)
    (hmem : id ∈ l.map Todo.id) :
    ∃ l1 t l2,
      l = l1 ++ t :: l2 ∧ t.id = id ∧ (∀ u ∈ l1, u.id ≠ id) ∧
      (saveEdit ⟨some id, d⟩ l true).1 =
        l1 ++ (⟨t.id, jsTrim d, t.completed, t.created_at,
          t.category, t.priority, t.due_date, t.notes⟩ : Todo) :: l2 ∧
      (saveEdit ⟨some id, d⟩ l true).2.1 = cancelEdit := by
  obtain ⟨l1, t, l2, he, hidt, hnone, hupd⟩ := updateFirst_split l id (jsTrim d) hmem
  exact ⟨l1, t, l2, he, hidt, hnone, by simp [saveEdit, hid, hd, hupd], by simp [saveEdit, hid, hd]⟩

/-- Witness for `C9_rename_frame`: renaming task 5 in a two-task collection. -/
theorem C9_rename_frame_witness :
    ((5 : Nat) ≠ 0) ∧ (jsTrim (str " New ")).isEmpty = false ∧
    (5 : Nat) ∈ ([exTodo, exTarget].map Todo.id) ∧
    (∃ l1 t l2,
      [exTodo, exTarget] = l1 ++ t :: l2 ∧ t.id = 5 ∧ (∀ u ∈ l1, u.id ≠ 5) ∧
      (saveEdit ⟨some 5, str " New "⟩ [exTodo, exTarget] true).1 =
        l1 ++ (⟨t.id, jsTrim (str " New "), t.completed, t.created_at,
          t.category, t.priority, t.due_date, t.notes⟩ : Todo) :: l2 ∧
      (saveEdit ⟨some 5, str " New "⟩ [exTodo, exTarget] true).2.1 = cancelEdit) :=
  ⟨by decide, by decide, by decide,
    C9_rename_frame [exTodo, exTarget] 5 (str " New ") (by decide) (by decide) (by decide)⟩

/-- Claim C10, counterexample: the guard `!editingTodo.value` treats the id 0
as falsy, so the Editing(0, "x") state — whose id matches no task in the
empty collection and whose draft trims non-empty — issues ZERO adapter round
trips and stays Editing rather than transitioning to Idle. -/
theorem C10_counterexample :
    (jsTrim (str "x")).isEmpty = false ∧
    (0 : Nat) ∉ (([] : List Todo).map Todo.id) ∧
    (saveEdit ⟨some 0, str "x"⟩ [] true).2.2 = 0 ∧
    (saveEdit ⟨some 0, str "x"⟩ [] true).2.1 ≠ cancelEdit := by
  decide

/-- Claim C10 as amended: for an Editing(id, draft) state with NONZERO id
matching no task in the collection and a non-empty trimmed draft, save still
issues the adapter update round trip, and on adapter success the local
collection is unchanged and the edit sub-state transitions to Idle. -/
theorem C10_missing_id_save (l : List Todo) (id : Nat) (d : Str)
    (hid : id ≠ 0) (hd : (jsTrim d).isEmpty = false)
    (hmem : id ∉ l.map Todo.id) :
    saveEdit ⟨some id, d⟩ l true = (l, cancelEdit, 1) := by
  simp [saveEdit, hid, hd, updateFirst_eq_self l id _ hmem]

/-- Witness for `C10_missing_id_save`: saving an edit of absent task 9. -/
theorem C10_missing_id_save_witness :
    saveEdit ⟨some 9, str "x"⟩ [exTodo] true = ([exTodo], cancelEdit, 1) :=
  C10_missing_id_save [exTodo] 9 (str "x") (by decide) (by decide) (by decide)
